import Mathlib

/-!
Verification development for the HSM task contract (`service/history/hsm/tasks.go`),
the dynamic-settings circuit breaker wrapper (`common/circuitbreaker`), and the
generated Nexus operation state enum parser.

Go source constructs are shallowly embedded: interfaces become structures holding
their observable data, fallible Go functions returning `(T, error)` become
`Except`-valued (or pair-valued) Lean functions, `int32`/`uint32` become `Int`/`Nat`
with explicit `% 2^32` where conversions occur, and `time.Time` / `time.Duration`
become integer nanosecond counts.
-/

namespace hsm

/-- TaskType (tasks.go 34-40): immutable pair of a storage-stable numeric ID
(`int32` in Go, embedded as `Int`) and a human readable name. -/
structure TaskType where
  ID : Int
  Name : String
deriving DecidableEq, Repr

/-- KindVariant is the runtime tag distinguishing the concrete `TaskKind` variants
(used for queue routing without string comparison). -/
inductive KindVariant where
  | timer
  | outbound
deriving DecidableEq, Repr

/-- TaskKind (tasks.go 65-91): the closed set of task kinds. In Go this is the
sealed interface `TaskKind` (sealed via the unexported
`mustEmbedUnimplementedTaskKind` marker) with exactly two concrete variants:
`TaskKindTimer{Deadline time.Time}` and `TaskKindOutbound{Destination string}`.
The sealed interface is embedded as a closed inductive; `Deadline` is embedded
as integer nanoseconds since epoch. -/
inductive TaskKind where
  | timer (Deadline : Int)
  | outbound (Destination : String)
deriving DecidableEq, Repr

/-- Runtime tag of a `TaskKind` value (queue-routing discriminator; no string
comparison involved). -/
def TaskKind.variant : TaskKind → KindVariant
  | TaskKind.timer _ => KindVariant.timer
  | TaskKind.outbound _ => KindVariant.outbound

/-- Modelled from the spec: a task definition. Spec 4.2 fixes `Type()` and
`Concurrent()` per task definition (not per instance) and requires a given
`TaskType` to always yield the same kind shape; concrete task definitions are
not among the shown sources (only the `Task` interface, tasks.go 57-63). -/
structure TaskDef where
  ttype : TaskType
  variant : KindVariant
  concurrent : Bool
deriving DecidableEq, Repr

/-- Task (tasks.go 57-63): a value exposing `Type() TaskType`, `Kind() TaskKind`
and `Concurrent() bool`, plus the task-specific payload (opaque to the
framework, embedded as a byte list). The interface value is embedded as a
structure over its task definition, kind instance and payload. -/
structure Task where
  tdef : TaskDef
  kind : TaskKind
  payload : List Nat
deriving DecidableEq, Repr

/-- The `Type()` accessor of the `Task` interface. -/
def Task.TypeOf (t : Task) : TaskType := t.tdef.ttype

/-- The `Kind()` accessor of the `Task` interface. -/
def Task.Kind (t : Task) : TaskKind := t.kind

/-- The `Concurrent()` accessor of the `Task` interface; fixed per task
definition. -/
def Task.Concurrent (t : Task) : Bool := t.tdef.concurrent

/-- Error conditions of the task contract. `ErrInvalidTaskKind` is declared in
the source (tasks.go 30-31); the others are modelled from the spec's error
kinds (spec 7): generic encoding failure (distinct from invalid kind),
unregistered-type lookup failure, and duplicate-registration failure. -/
inductive TaskError where
  | ErrInvalidTaskKind
  | ErrEncodingFailure
  | ErrNotRegistered (typeID : Int)
  | ErrAlreadyRegistered (typeID : Int)
deriving DecidableEq, Repr

/-- Modelled from the spec: a `TaskSerializer` implementation. The shown source
has only the interface (tasks.go 93-97); per spec 4.3 a serializer is
registered for one task definition and its kind variant, `Serialize` rejects a
task whose `Kind()` does not match that variant with the invalid-kind
condition, and `Deserialize` receives the expected kind from the persisted
envelope (so kind data is not duplicated in the payload) and rejects a
mismatched kind the same way. -/
structure TaskSerializer where
  tdef : TaskDef
deriving DecidableEq, Repr

/-- Modelled from the spec: `TaskSerializer.Serialize` (spec 4.3). A task whose
kind variant does not match the registered variant is rejected with
`ErrInvalidTaskKind` and no bytes are produced; a task of a foreign definition
cannot be encoded and fails with the generic encoding failure; otherwise the
payload bytes are produced. -/
def TaskSerializer.Serialize (s : TaskSerializer) (t : Task) :
    Except TaskError (List Nat) :=
  if TaskKind.variant (Task.Kind t) ≠ s.tdef.variant then
    Except.error TaskError.ErrInvalidTaskKind
  else if t.tdef ≠ s.tdef then
    Except.error TaskError.ErrEncodingFailure
  else
    Except.ok t.payload

/-- Modelled from the spec: `TaskSerializer.Deserialize` (spec 4.3). The
expected kind comes from the persisted envelope; a mismatched kind is rejected
with `ErrInvalidTaskKind`, otherwise the task is reconstructed from the
serializer's registered definition, the envelope kind and the payload bytes. -/
def TaskSerializer.Deserialize (s : TaskSerializer) (data : List Nat)
    (kind : TaskKind) : Except TaskError Task :=
  if TaskKind.variant kind ≠ s.tdef.variant then
    Except.error TaskError.ErrInvalidTaskKind
  else
    Except.ok { tdef := s.tdef, kind := kind, payload := data }

/-- Modelled from the spec: the serializer `Registry` (spec 3, 4.3), a mapping
from `TaskType.ID` to a `TaskSerializer`, at most one serializer per ID. The
registry implementation is not among the shown sources. -/
structure Registry where
  taskSerializers : List (Int × TaskSerializer)
deriving DecidableEq, Repr

/-- Modelled from the spec: `Registry.Get(typeID int32)` (spec 6). Lookup of an
unregistered ID fails with the distinguishable not-found condition instead of
crashing; the function is total (never panics) and pure (the registry value is
left untouched). -/
def Registry.Get (r : Registry) (typeID : Int) : Except TaskError TaskSerializer :=
  match List.lookup typeID r.taskSerializers with
  | some s => Except.ok s
  | none => Except.error (TaskError.ErrNotRegistered typeID)

/-- Modelled from the spec: serializer registration (spec 4.3). Re-registering
an already-registered `TaskType.ID` is rejected at registration time and never
silently overwrites; on success the new mapping is added. -/
def Registry.RegisterTaskSerializer (r : Registry) (typeID : Int)
    (s : TaskSerializer) : Except TaskError Registry :=
  match List.lookup typeID r.taskSerializers with
  | some _ => Except.error (TaskError.ErrAlreadyRegistered typeID)
  | none => Except.ok { taskSerializers := (typeID, s) :: r.taskSerializers }

/-- Staleness Reference (spec 3, tasks.go 54-56): the machine path and the
machine transition count snapshotted at generation time, persisted with every
non-concurrent task. -/
structure Ref where
  machinePath : List String
  machineTransitionCount : Nat
deriving DecidableEq, Repr

/-- Outcome of pre-execution staleness validation. A stale task is a normal
control-flow outcome (silently dropped), never an error or retryable failure,
so the outcome type has no failure case. -/
inductive ExecutionOutcome where
  | executed
  | droppedStale
deriving DecidableEq, Repr

/-- Modelled from the spec: the staleness validation performed before executing
a task (the contract is documented at tasks.go 51-56 and spec 4.4; the
validating executor code is not among the shown sources). Concurrent tasks
skip the check unconditionally; a non-concurrent task executes exactly when
the snapshotted transition count equals the machine's current transition
count, and is otherwise dropped as stale without executing task logic. -/
def validateStaleness (t : Task) (ref : Ref) (currentTransitionCount : Nat) :
    ExecutionOutcome :=
  if Task.Concurrent t then
    ExecutionOutcome.executed
  else if ref.machineTransitionCount = currentTransitionCount then
    ExecutionOutcome.executed
  else
    ExecutionOutcome.droppedStale

/-- A sample non-concurrent timer task definition, used as a concrete witness
input. -/
def timerTaskDef : TaskDef :=
  { ttype := { ID := 1, Name := "test-timer" }
    variant := KindVariant.timer
    concurrent := false }

/-- A sample non-concurrent timer task. -/
def sampleTimerTask : Task :=
  { tdef := timerTaskDef, kind := TaskKind.timer 100, payload := [7, 8] }

/-- A sample concurrent outbound task definition, used as a concrete witness
input. -/
def outboundTaskDef : TaskDef :=
  { ttype := { ID := 2, Name := "test-outbound" }
    variant := KindVariant.outbound
    concurrent := true }

/-- A sample concurrent outbound task. -/
def sampleOutboundTask : Task :=
  { tdef := outboundTaskDef
    kind := TaskKind.outbound "my-endpoint"
    payload := [1] }

/-- A sample serializer registered for the timer task definition. -/
def timerTaskSerializer : TaskSerializer := { tdef := timerTaskDef }

/-- A sample serializer registered for the outbound task definition. -/
def outboundTaskSerializer : TaskSerializer := { tdef := outboundTaskDef }

/-- A sample registry holding the timer serializer under type ID 1. -/
def sampleRegistry : Registry :=
  { taskSerializers := [(1, timerTaskSerializer)] }

end hsm

namespace gobreaker

/-- Counts: model of the external `gobreaker.Counts` struct (five unsigned
counters). -/
structure Counts where
  Requests : Nat
  TotalSuccesses : Nat
  TotalFailures : Nat
  ConsecutiveSuccesses : Nat
  ConsecutiveFailures : Nat
deriving DecidableEq, Repr

/-- Model of the external `gobreaker.TwoStepCircuitBreaker`: its observable
accessors (`Name`, `State`, `Counts`), the settings it was constructed with,
and its accumulated state. `State` is the gobreaker state enum (0 = closed);
durations are integer nanoseconds. Internal breaker dynamics are opaque to the
wrapper under verification and are left unconstrained in the fields. -/
structure TwoStepCircuitBreaker where
  name : String
  maxRequests : Nat
  interval : Int
  timeout : Int
  state : Nat
  counts : Counts
deriving DecidableEq, Repr

/-- Model of `gobreaker.NewTwoStepCircuitBreaker`: a fresh breaker starts in
the closed state (0) with all-zero counts, carrying the supplied settings. -/
def NewTwoStepCircuitBreaker (name : String) (maxRequests : Nat)
    (interval timeout : Int) : TwoStepCircuitBreaker :=
  { name := name
    maxRequests := maxRequests
    interval := interval
    timeout := timeout
    state := 0
    counts :=
      { Requests := 0
        TotalSuccesses := 0
        TotalFailures := 0
        ConsecutiveSuccesses := 0
        ConsecutiveFailures := 0 } }

end gobreaker

namespace circuitbreaker

/-- BaseSettings (part_001 34-38, Go type `baseSettings`): the dynamic part of
the breaker settings. `MaxRequests` is a `uint32` (embedded as `Nat` reduced
`% 2^32` at the conversion point); `Interval` and `Timeout` are
`time.Duration` values embedded as integer nanoseconds. -/
structure BaseSettings where
  MaxRequests : Nat
  Interval : Int
  Timeout : Int
deriving DecidableEq, Repr

/-- One nanosecond-count second, the Go constant `time.Second`. -/
def timeSecond : Int := 1000000000

/-- The settings-map key for MaxRequests (part_001 44). -/
def maxRequestsKey : String := "MaxRequests"

/-- The settings-map key for Interval (part_001 45; note the source literal is
"intervalKey"). -/
def intervalKey : String := "intervalKey"

/-- The settings-map key for Timeout (part_001 46). -/
def timeoutKey : String := "timeout"

/-- Default MaxRequests (part_001 49): zero, meaning use the gobreaker
default. -/
def defaultMaxRequests : Nat := 0

/-- Default Interval (part_001 50): zero duration. -/
def defaultInterval : Int := 0

/-- Default Timeout (part_001 51): zero duration. -/
def defaultTimeout : Int := 0

/-- Model of the external `number.NewNumber(v).GetUintOrDefault(d)` helper for
settings-map values that are integers: a nonnegative value converts to its
`Nat` value, anything else yields the default. -/
def getUintOrDefault (v : Int) (d : Nat) : Nat :=
  if 0 ≤ v then v.toNat else d

/-- Model of the external `number.NewNumber(v).GetIntOrDefault(d)` helper for
settings-map values that are integers: the value itself. -/
def getIntOrDefault (v : Int) (_d : Int) : Int := v

/-- TwoStepCircuitBreakerWithDynamicSettings (part_001 22-32): wrapper of a
`gobreaker.TwoStepCircuitBreaker` that recomputes its settings on every
`Allow` call and replaces the inner breaker when they change. The Go struct's
function-valued fields (`settingsFn`, `readyToTrip`, `onStateChange`,
`isSuccessful`) are not state the claims observe: the map `settingsFn` returns
at a call is passed explicitly to the operations, and the callback fields are
omitted (they are forwarded verbatim to the constructed breaker). -/
structure TwoStepCircuitBreakerWithDynamicSettings where
  cb : Option gobreaker.TwoStepCircuitBreaker
  baseSettings : BaseSettings
  name : String
deriving DecidableEq, Repr

/-- The settings map produced by one call of `settingsFn`: Go's
`map[string]any`, embedded as an association list of integer-valued entries
(the only values the wrapper's numeric coercions consume). -/
def SettingsMap : Type := List (String × Int)

/-- Computation of the effective base settings from the settings map
(part_001 139-160): each key present overrides the zero default, via the
`number` coercions, with `Interval`/`Timeout` scaled by `time.Second` and
`MaxRequests` truncated to `uint32`. -/
def computeBaseSettings (settingsMap : SettingsMap) : BaseSettings :=
  let bs0 : BaseSettings :=
    { MaxRequests := defaultMaxRequests
      Interval := defaultInterval
      Timeout := defaultTimeout }
  let bs1 :=
    match List.lookup maxRequestsKey settingsMap with
    | some maxRequests =>
        { bs0 with
          MaxRequests := getUintOrDefault maxRequests defaultMaxRequests % 2 ^ 32 }
    | none => bs0
  let bs2 :=
    match List.lookup intervalKey settingsMap with
    | some interval =>
        { bs1 with
          Interval := getIntOrDefault interval (defaultInterval / timeSecond) * timeSecond }
    | none => bs1
  match List.lookup timeoutKey settingsMap with
  | some timeout =>
      { bs2 with
        Timeout := getIntOrDefault timeout (defaultTimeout / timeSecond) * timeSecond }
  | none => bs2

/-- checkAndUpdateSettings (part_001 138-177): recompute the base settings from
the settings map; if an inner breaker exists and the settings are unchanged,
leave the wrapper untouched, otherwise store the new settings and construct a
fresh inner breaker from them (the Go method always returns a nil error, so
the embedding returns the updated wrapper directly). -/
def checkAndUpdateSettings (c : TwoStepCircuitBreakerWithDynamicSettings)
    (settingsMap : SettingsMap) : TwoStepCircuitBreakerWithDynamicSettings :=
  let bs := computeBaseSettings settingsMap
  if c.cb.isSome ∧ bs = c.baseSettings then
    c
  else
    { c with
      baseSettings := bs
      cb := some (gobreaker.NewTwoStepCircuitBreaker c.name bs.MaxRequests
        bs.Interval bs.Timeout) }

/-- Name (part_001 110-115): empty string while no inner breaker exists,
otherwise the inner breaker's name. -/
def TwoStepCircuitBreakerWithDynamicSettings.Name
    (c : TwoStepCircuitBreakerWithDynamicSettings) : String :=
  match c.cb with
  | none => ""
  | some b => b.name

/-- State (part_001 117-122): state 0 while no inner breaker exists, otherwise
the inner breaker's state. -/
def TwoStepCircuitBreakerWithDynamicSettings.State
    (c : TwoStepCircuitBreakerWithDynamicSettings) : Nat :=
  match c.cb with
  | none => 0
  | some b => b.state

/-- Counts (part_001 124-129): the zero `gobreaker.Counts` struct while no
inner breaker exists, otherwise the inner breaker's counts. -/
def TwoStepCircuitBreakerWithDynamicSettings.Counts
    (c : TwoStepCircuitBreakerWithDynamicSettings) : gobreaker.Counts :=
  match c.cb with
  | none =>
      { Requests := 0
        TotalSuccesses := 0
        TotalFailures := 0
        ConsecutiveSuccesses := 0
        ConsecutiveFailures := 0 }
  | some b => b.counts

/-- NewTwoStepCircuitBreakerWithDynamicSettings (part_001 54-60): a fresh
wrapper with no inner breaker and zero-valued remaining fields. -/
def NewTwoStepCircuitBreakerWithDynamicSettings :
    TwoStepCircuitBreakerWithDynamicSettings :=
  { cb := none
    baseSettings :=
      { MaxRequests := defaultMaxRequests
        Interval := defaultInterval
        Timeout := defaultTimeout }
    name := "" }

end circuitbreaker

namespace enums

/-- NexusOperationState: the generated `int32`-backed protobuf enum, embedded
as `Int`. -/
abbrev NexusOperationState := Int

/-- Modelled from the spec: the generated protojson canonical SCREAMING_CASE
map `NexusOperationState_value`, referenced by `NexusOperationStateFromString`
(part_000 48) but not among the shown sources; populated with the canonical
names of the eight states listed in the shorthand map. -/
def NexusOperationState_value : List (String × Int) :=
  [("NEXUS_OPERATION_STATE_UNSPECIFIED", 0),
   ("NEXUS_OPERATION_STATE_SCHEDULED", 1),
   ("NEXUS_OPERATION_STATE_BACKING_OFF", 2),
   ("NEXUS_OPERATION_STATE_STARTED", 3),
   ("NEXUS_OPERATION_STATE_SUCCEEDED", 4),
   ("NEXUS_OPERATION_STATE_FAILED", 5),
   ("NEXUS_OPERATION_STATE_CANCELED", 6),
   ("NEXUS_OPERATION_STATE_TIMED_OUT", 7)]

/-- The PascalCase shorthand map (part_000 33-42). -/
def NexusOperationState_shorthandValue : List (String × Int) :=
  [("Unspecified", 0),
   ("Scheduled", 1),
   ("BackingOff", 2),
   ("Started", 3),
   ("Succeeded", 4),
   ("Failed", 5),
   ("Canceled", 6),
   ("TimedOut", 7)]

/-- NexusOperationStateFromString (part_000 47-54): consult the canonical map
first, then the shorthand map; on a miss in both, return state 0 paired with
the formatted error message (Go's `(NexusOperationState, error)` pair is
embedded as a value paired with an optional error string). -/
def NexusOperationStateFromString (s : String) :
    NexusOperationState × Option String :=
  match List.lookup s NexusOperationState_value with
  | some v => (v, none)
  | none =>
      match List.lookup s NexusOperationState_shorthandValue with
      | some v => (v, none)
      | none => (0, some (s ++ " is not a valid NexusOperationState"))

end enums

/-- C1: for a non-concurrent task generated when the machine's transition
count was N, staleness validation succeeds (the task executes) exactly when
the machine's current transition count equals N; for any other current count
the task is reported stale and dropped, an ordinary outcome rather than a
retryable failure (the outcome type has no failure case at all). -/
theorem validateStaleness_nonconcurrent_iff (t : hsm.Task) (p : List String)
    (n cur : Nat) (h : hsm.Task.Concurrent t = false) :
    (hsm.validateStaleness t { machinePath := p, machineTransitionCount := n }
        cur = hsm.ExecutionOutcome.executed ↔ cur = n) ∧
    (hsm.validateStaleness t { machinePath := p, machineTransitionCount := n }
        cur = hsm.ExecutionOutcome.droppedStale ↔ cur ≠ n) := by
  by_cases hc : n = cur
  · simp [hsm.validateStaleness, h, hc]
  · simp [hsm.validateStaleness, h, hc]
    omega

/-- Witness for C1: the sample non-concurrent timer task generated at count 5
is dropped as stale against a machine currently at count 7. -/
theorem validateStaleness_nonconcurrent_iff_witness :
    hsm.Task.Concurrent hsm.sampleTimerTask = false ∧
    hsm.validateStaleness hsm.sampleTimerTask
        { machinePath := ["wf1", "step2"], machineTransitionCount := 5 } 7 =
      hsm.ExecutionOutcome.droppedStale :=
  ⟨rfl,
    (validateStaleness_nonconcurrent_iff hsm.sampleTimerTask ["wf1", "step2"]
        5 7 rfl).2.mpr (by decide)⟩

/-- C2: a concurrent task skips staleness validation unconditionally: it
executes for every reference and every current transition count, however far
the machine has transitioned since generation. -/
theorem validateStaleness_concurrent_skips (t : hsm.Task) (ref : hsm.Ref)
    (cur : Nat) (h : hsm.Task.Concurrent t = true) :
    hsm.validateStaleness t ref cur = hsm.ExecutionOutcome.executed := by
  simp [hsm.validateStaleness, h]

/-- Witness for C2: the sample concurrent outbound task generated at count 5
still executes against a machine that has advanced to count 9. -/
theorem validateStaleness_concurrent_skips_witness :
    hsm.Task.Concurrent hsm.sampleOutboundTask = true ∧
    hsm.validateStaleness hsm.sampleOutboundTask
        { machinePath := ["wf1", "step2"], machineTransitionCount := 5 } 9 =
      hsm.ExecutionOutcome.executed :=
  ⟨rfl,
    validateStaleness_concurrent_skips hsm.sampleOutboundTask
      { machinePath := ["wf1", "step2"], machineTransitionCount := 5 } 9 rfl⟩

/-- C3: for every registered type ID and every task the registered serializer
accepts, `Serialize` followed by `Deserialize` of the produced bytes with the
same `TaskKind` returns the original task (equal on all observable fields:
type, kind, concurrency flag and payload). -/
theorem serialize_deserialize_roundtrip (r : hsm.Registry) (typeID : Int)
    (s : hsm.TaskSerializer) (t : hsm.Task) (data : List Nat)
    (_hr : hsm.Registry.Get r typeID = Except.ok s)
    (h : hsm.TaskSerializer.Serialize s t = Except.ok data) :
    hsm.TaskSerializer.Deserialize s data (hsm.Task.Kind t) = Except.ok t := by
  by_cases h1 : hsm.TaskKind.variant (hsm.Task.Kind t) ≠ s.tdef.variant
  · simp [hsm.TaskSerializer.Serialize, h1] at h
  · by_cases h2 : t.tdef ≠ s.tdef
    · simp [hsm.TaskSerializer.Serialize, h1, h2] at h
    · simp only [hsm.TaskSerializer.Serialize, h1, h2, if_neg, ite_false,
        not_false_eq_true, Except.ok.injEq] at h
      push_neg at h1 h2
      simp only [hsm.TaskSerializer.Deserialize, h1, ite_false, if_neg,
        not_true_eq_false, not_false_eq_true, Except.ok.injEq]
      cases t with
      | mk tdef kind payload =>
        simp only [hsm.Task.Kind] at h ⊢
        simp_all

/-- Witness for C3: the timer serializer registered under ID 1 round-trips the
sample timer task. -/
theorem serialize_deserialize_roundtrip_witness :
    hsm.TaskSerializer.Deserialize hsm.timerTaskSerializer [7, 8]
        (hsm.Task.Kind hsm.sampleTimerTask) = Except.ok hsm.sampleTimerTask :=
  serialize_deserialize_roundtrip hsm.sampleRegistry 1 hsm.timerTaskSerializer
    hsm.sampleTimerTask [7, 8] rfl rfl

/-- C4: a serializer rejects a task whose `Kind()` variant differs from the
variant it is registered for with `ErrInvalidTaskKind` (producing no bytes at
all), `Deserialize` rejects a mismatched expected kind with the same
condition, and that condition is distinct from the generic encoding
failure. -/
theorem serializer_rejects_mismatched_kind (s : hsm.TaskSerializer)
    (t : hsm.Task)
    (h : hsm.TaskKind.variant (hsm.Task.Kind t) ≠ s.tdef.variant) :
    hsm.TaskSerializer.Serialize s t =
      Except.error hsm.TaskError.ErrInvalidTaskKind ∧
    (∀ data kind, hsm.TaskKind.variant kind ≠ s.tdef.variant →
      hsm.TaskSerializer.Deserialize s data kind =
        Except.error hsm.TaskError.ErrInvalidTaskKind) ∧
    hsm.TaskError.ErrInvalidTaskKind ≠ hsm.TaskError.ErrEncodingFailure := by
  refine ⟨?_, ?_, by simp⟩
  · simp [hsm.TaskSerializer.Serialize, h]
  · intro data kind hk
    simp [hsm.TaskSerializer.Deserialize, hk]

/-- Witness for C4: the timer serializer rejects the outbound-kind sample
task. -/
theorem serializer_rejects_mismatched_kind_witness :
    hsm.TaskKind.variant (hsm.Task.Kind hsm.sampleOutboundTask) ≠
      hsm.timerTaskSerializer.tdef.variant ∧
    hsm.TaskSerializer.Serialize hsm.timerTaskSerializer
        hsm.sampleOutboundTask =
      Except.error hsm.TaskError.ErrInvalidTaskKind :=
  ⟨by decide,
    (serializer_rejects_mismatched_kind hsm.timerTaskSerializer
        hsm.sampleOutboundTask (by decide)).1⟩

/-- C5: registering any serializer under a type ID that already has one is
rejected at registration time with the duplicate-registration condition, and
the existing mapping still resolves to the originally registered
serializer (nothing is overwritten). -/
theorem register_duplicate_rejected (r : hsm.Registry) (typeID : Int)
    (s0 s1 : hsm.TaskSerializer)
    (h : List.lookup typeID r.taskSerializers = some s0) :
    hsm.Registry.RegisterTaskSerializer r typeID s1 =
      Except.error (hsm.TaskError.ErrAlreadyRegistered typeID) ∧
    hsm.Registry.Get r typeID = Except.ok s0 := by
  constructor
  · simp [hsm.Registry.RegisterTaskSerializer, h]
  · simp [hsm.Registry.Get, h]

/-- Witness for C5: re-registering ID 1 of the sample registry with the
outbound serializer fails and the timer serializer stays registered. -/
theorem register_duplicate_rejected_witness :
    hsm.Registry.RegisterTaskSerializer hsm.sampleRegistry 1
        hsm.outboundTaskSerializer =
      Except.error (hsm.TaskError.ErrAlreadyRegistered 1) ∧
    hsm.Registry.Get hsm.sampleRegistry 1 = Except.ok hsm.timerTaskSerializer :=
  register_duplicate_rejected hsm.sampleRegistry 1 hsm.timerTaskSerializer
    hsm.outboundTaskSerializer rfl

/-- C6: looking up a type ID with no registered serializer returns the
distinguishable unregistered-type error; the operation is a total pure
function of the registry (it cannot panic and leaves the registry value
untouched). -/
theorem get_unregistered_fails (r : hsm.Registry) (typeID : Int)
    (h : List.lookup typeID r.taskSerializers = none) :
    hsm.Registry.Get r typeID =
      Except.error (hsm.TaskError.ErrNotRegistered typeID) := by
  simp [hsm.Registry.Get, h]

/-- Witness for C6: ID 42 is not in the sample registry and its lookup reports
the unregistered-type condition. -/
theorem get_unregistered_fails_witness :
    hsm.Registry.Get hsm.sampleRegistry 42 =
      Except.error (hsm.TaskError.ErrNotRegistered 42) :=
  get_unregistered_fails hsm.sampleRegistry 42 rfl

/-- C7: `TaskKind` is a closed sum with exactly the two variants
`timer (Deadline)` and `outbound (Destination)`: every value is one of the
two, the runtime tag `variant` distinguishes them without string comparison,
each variant is determined exactly by its single field, and the two variants
are disjoint. -/
theorem taskKind_closed_sum :
    (∀ k : hsm.TaskKind,
      (∃ d, k = hsm.TaskKind.timer d ∧
        hsm.TaskKind.variant k = hsm.KindVariant.timer) ∨
      (∃ s, k = hsm.TaskKind.outbound s ∧
        hsm.TaskKind.variant k = hsm.KindVariant.outbound)) ∧
    (∀ d d', hsm.TaskKind.timer d = hsm.TaskKind.timer d' ↔ d = d') ∧
    (∀ s s', hsm.TaskKind.outbound s = hsm.TaskKind.outbound s' ↔ s = s') ∧
    (∀ d s, hsm.TaskKind.timer d ≠ hsm.TaskKind.outbound s) ∧
    hsm.KindVariant.timer ≠ hsm.KindVariant.outbound := by
  refine ⟨?_, ?_, ?_, ?_, by simp⟩
  · intro k
    cases k with
    | timer d => exact Or.inl ⟨d, rfl, rfl⟩
    | outbound s => exact Or.inr ⟨s, rfl, rfl⟩
  · intro d d'
    simp
  · intro s s'
    simp
  · intro d s
    simp

/-- Witness for C7: the closed-sum classification applied at the concrete kind
`timer 3`. -/
theorem taskKind_closed_sum_witness :
    (∃ d, hsm.TaskKind.timer 3 = hsm.TaskKind.timer d ∧
      hsm.TaskKind.variant (hsm.TaskKind.timer 3) = hsm.KindVariant.timer) ∨
    (∃ s, hsm.TaskKind.timer 3 = hsm.TaskKind.outbound s ∧
      hsm.TaskKind.variant (hsm.TaskKind.timer 3) =
        hsm.KindVariant.outbound) :=
  taskKind_closed_sum.1 (hsm.TaskKind.timer 3)

/-- C8: on an `Allow` call, `checkAndUpdateSettings` leaves the wrapper — in
particular the inner breaker object and its accumulated state — completely
unchanged when an inner breaker exists and the settings map yields the same
effective base settings as stored; when the effective settings differ or no
inner breaker exists yet, the new settings are stored and a fresh inner
breaker (closed state, zero counts) built from them replaces whatever was
there, discarding all previous breaker state. -/
theorem checkAndUpdateSettings_spec
    (c : circuitbreaker.TwoStepCircuitBreakerWithDynamicSettings)
    (m : circuitbreaker.SettingsMap) :
    (∀ b, c.cb = some b →
      circuitbreaker.computeBaseSettings m = c.baseSettings →
        circuitbreaker.checkAndUpdateSettings c m = c) ∧
    ((c.cb = none ∨ circuitbreaker.computeBaseSettings m ≠ c.baseSettings) →
      circuitbreaker.checkAndUpdateSettings c m =
        { c with
          baseSettings := circuitbreaker.computeBaseSettings m
          cb := some (gobreaker.NewTwoStepCircuitBreaker c.name
            (circuitbreaker.computeBaseSettings m).MaxRequests
            (circuitbreaker.computeBaseSettings m).Interval
            (circuitbreaker.computeBaseSettings m).Timeout) }) := by
  constructor
  · intro b hb hbs
    simp [circuitbreaker.checkAndUpdateSettings, hb, hbs]
  · intro hor
    rcases hor with hn | hne
    · simp [circuitbreaker.checkAndUpdateSettings, hn]
    · simp [circuitbreaker.checkAndUpdateSettings, hne]

/-- Witness for C8: a fresh wrapper (no inner breaker yet) on an empty
settings map gets a newly constructed inner breaker with the default
settings. -/
theorem checkAndUpdateSettings_spec_witness :
    circuitbreaker.checkAndUpdateSettings
        circuitbreaker.NewTwoStepCircuitBreakerWithDynamicSettings [] =
      { circuitbreaker.NewTwoStepCircuitBreakerWithDynamicSettings with
        baseSettings := circuitbreaker.computeBaseSettings []
        cb := some (gobreaker.NewTwoStepCircuitBreaker
          circuitbreaker.NewTwoStepCircuitBreakerWithDynamicSettings.name
          (circuitbreaker.computeBaseSettings []).MaxRequests
          (circuitbreaker.computeBaseSettings []).Interval
          (circuitbreaker.computeBaseSettings []).Timeout) } :=
  (checkAndUpdateSettings_spec
      circuitbreaker.NewTwoStepCircuitBreakerWithDynamicSettings []).2
    (Or.inl rfl)

/-- C9: while no inner breaker exists (no `Allow` call has happened yet), the
accessors return the zero values — empty name, state 0 and an all-zero counts
struct — instead of panicking (they are total functions on the wrapper
state). -/
theorem accessors_zero_before_first_allow
    (c : circuitbreaker.TwoStepCircuitBreakerWithDynamicSettings)
    (h : c.cb = none) :
    c.Name = "" ∧ c.State = 0 ∧
    c.Counts =
      { Requests := 0
        TotalSuccesses := 0
        TotalFailures := 0
        ConsecutiveSuccesses := 0
        ConsecutiveFailures := 0 } := by
  refine ⟨?_, ?_, ?_⟩ <;>
    simp [circuitbreaker.TwoStepCircuitBreakerWithDynamicSettings.Name,
      circuitbreaker.TwoStepCircuitBreakerWithDynamicSettings.State,
      circuitbreaker.TwoStepCircuitBreakerWithDynamicSettings.Counts, h]

/-- Witness for C9: the freshly constructed wrapper has no inner breaker and
all three accessors return the zero values. -/
theorem accessors_zero_before_first_allow_witness :
    circuitbreaker.NewTwoStepCircuitBreakerWithDynamicSettings.Name = "" ∧
    circuitbreaker.NewTwoStepCircuitBreakerWithDynamicSettings.State = 0 ∧
    circuitbreaker.NewTwoStepCircuitBreakerWithDynamicSettings.Counts =
      { Requests := 0
        TotalSuccesses := 0
        TotalFailures := 0
        ConsecutiveSuccesses := 0
        ConsecutiveFailures := 0 } :=
  accessors_zero_before_first_allow
    circuitbreaker.NewTwoStepCircuitBreakerWithDynamicSettings rfl

/-- C10: `NexusOperationStateFromString` returns the mapped state with no
error exactly when the input is a key of the canonical map or of the
PascalCase shorthand map, consulting the canonical map first; on any other
string it returns state 0 together with the formatted error. -/
theorem nexusOperationStateFromString_spec (s : String) :
    (∀ v, List.lookup s enums.NexusOperationState_value = some v →
      enums.NexusOperationStateFromString s = (v, none)) ∧
    (List.lookup s enums.NexusOperationState_value = none →
      ∀ v, List.lookup s enums.NexusOperationState_shorthandValue = some v →
        enums.NexusOperationStateFromString s = (v, none)) ∧
    (List.lookup s enums.NexusOperationState_value = none →
      List.lookup s enums.NexusOperationState_shorthandValue = none →
        enums.NexusOperationStateFromString s =
          (0, some (s ++ " is not a valid NexusOperationState"))) ∧
    ((enums.NexusOperationStateFromString s).2 = none ↔
      ((List.lookup s enums.NexusOperationState_value).isSome ∨
        (List.lookup s enums.NexusOperationState_shorthandValue).isSome)) := by
  refine ⟨?_, ?_, ?_, ?_⟩
  · intro v hv
    simp [enums.NexusOperationStateFromString, hv]
  · intro h1 v hv
    simp [enums.NexusOperationStateFromString, h1, hv]
  · intro h1 h2
    simp [enums.NexusOperationStateFromString, h1, h2]
  · rcases hv : List.lookup s enums.NexusOperationState_value with _ | v
    · rcases hw : List.lookup s enums.NexusOperationState_shorthandValue
        with _ | w
      · simp [enums.NexusOperationStateFromString, hv, hw]
      · simp [enums.NexusOperationStateFromString, hv, hw]
    · simp [enums.NexusOperationStateFromString, hv]

/-- Witness for C10: the shorthand name "Scheduled" (absent from the canonical
map) parses to state 1 with no error. -/
theorem nexusOperationStateFromString_spec_witness :
    enums.NexusOperationStateFromString "Scheduled" = (1, none) :=
  (nexusOperationStateFromString_spec "Scheduled").2.1 rfl 1 rfl
